import Mathlib

/-!
Verification development for the streamlit-stonks indicator and reporting engine.

The Python source computes MACD-family indicators over daily close-price
series (`backend/service/macd.py`), classifies a single instrument into a
Bullish/Bearish/Neutral signal (`1_Stock_Summary.py`), builds per-instrument
snapshot rows with weekly/monthly changes (`main.py`), and ranks buy/sell
recommendations and universe summary statistics over a snapshot table
(`backend/service/framework.py`).

Machine floats are modelled as exact rationals; a possibly-missing cell
(pandas `NaN`) is modelled as `Option ℚ` with `none` for `NaN`.  Library
calls (`pandas`) are embedded with their documented semantics, noted at each
definition.
-/

namespace Stonks

/-- A numeric cell that may be undefined (`none` models the float `NaN`). -/
abbrev FVal := Option ℚ

/-- Comparison `a < b` on possibly-NaN cells: any comparison with NaN is
`False` in Python float semantics. -/
def fLt (a b : FVal) : Bool :=
  match a, b with
  | some x, some y => decide (x < y)
  | _, _ => false

/-- Comparison `a > b` on possibly-NaN cells: any comparison with NaN is
`False` in Python float semantics. -/
def fGt (a b : FVal) : Bool :=
  match a, b with
  | some x, some y => decide (y < x)
  | _, _ => false

/-- Cell subtraction; NaN propagates. -/
def fSub (a b : FVal) : FVal :=
  match a, b with
  | some x, some y => some (x - y)
  | _, _ => none

/-- Terminal labels of the per-instrument signal classifier. -/
inductive Signal where
  | Bullish
  | Bearish
  | Neutral
  deriving DecidableEq, Repr

/-- Embedding of the classifier in `1_Stock_Summary.py` lines 201-209, exactly
as written: the Bearish branch tests `last_custom_macd < last_custom_macd`
(the value against itself), faithfully reproducing the source. -/
def macd_signal (last_macd last_signal last_custom_macd last_custom_signal : FVal) : Signal :=
  if fGt last_macd last_signal && fGt last_custom_macd last_custom_signal
      && fGt last_macd (some 0) then
    Signal.Bullish
  else if fLt last_macd last_signal && fLt last_custom_macd last_custom_macd
      && fLt last_macd (some 0) then
    Signal.Bearish
  else
    Signal.Neutral

/-- Modelled from the spec: the corrected classifier of spec section 4.4, whose
Bearish branch compares the custom fast-vs-slow MACD against its own signal
line (`last_custom_signal`) rather than against itself. -/
def macdSignalSpec (last_macd last_signal last_custom_macd last_custom_signal : FVal) : Signal :=
  if fGt last_macd last_signal && fGt last_custom_macd last_custom_signal
      && fGt last_macd (some 0) then
    Signal.Bullish
  else if fLt last_macd last_signal && fLt last_custom_macd last_custom_signal
      && fLt last_macd (some 0) then
    Signal.Bearish
  else
    Signal.Neutral

/-- Smoothing factor of `Series.ewm(span=s)`: `α = 2 / (s + 1)`. -/
def ewmAlpha (span : ℕ) : ℚ := 2 / (span + 1)

/-- Tail of the unadjusted exponential moving average: given the previous
smoothed value `prev`, each next output is `α * x + (1 - α) * prev`. -/
def ewmRunAux (a prev : ℚ) : List ℚ → List ℚ
  | [] => []
  | x :: xs => (a * x + (1 - a) * prev) :: ewmRunAux a (a * x + (1 - a) * prev) xs

/-- Embedding of `Series.ewm(span, adjust=False).mean()` on a NaN-free series
(daily closes have no missing values): the first output equals the first
input, and each later output follows the recurrence with `α = 2/(span+1)`. -/
def ewmRun (span : ℕ) : List ℚ → List ℚ
  | [] => []
  | x :: xs => x :: ewmRunAux (ewmAlpha span) x xs

/-- Failure raised by the smoothing primitives; pandas `ewm` rejects
`span < 1` with a `ValueError` when the ewm window object is constructed. -/
inductive CalcError where
  | invalidSpan
  deriving DecidableEq, Repr

/-- Embedding of `Series.ewm(span, adjust=False).mean()` including the pandas
validation `span must satisfy: span >= 1`. -/
def ewmMean (span : ℕ) (xs : List ℚ) : Except CalcError (List ℚ) :=
  if span < 1 then Except.error CalcError.invalidSpan else Except.ok (ewmRun span xs)

/-- Check that every cell of a window is defined, returning the values. -/
def allSome : List FVal → Option (List ℚ)
  | [] => some []
  | none :: _ => none
  | some x :: rest => (allSome rest).map (fun vs => x :: vs)

/-- The trailing window of length `w` ending at index `i`. -/
def windowSlice (w i : ℕ) (xs : List FVal) : List FVal :=
  (xs.take (i + 1)).drop (i + 1 - w)

/-- Embedding of `Series.rolling(window=w).mean()` with the pandas defaults:
`min_periods` equals the window size, so the output at index `i` is defined
only when `1 ≤ w ≤ i + 1` and every cell of the trailing window is defined;
pandas validation accepts `w = 0` (it only rejects negative windows, with
the message that the window must be an integer 0 or greater), and a zero
window yields an all-NaN column. -/
def rollingMean (w : ℕ) (xs : List FVal) : List FVal :=
  (List.range xs.length).map fun i =>
    if 1 ≤ w ∧ w ≤ i + 1 then
      (allSome (windowSlice w i xs)).map (fun vs => vs.sum / (w : ℚ))
    else none

/-- Model of the per-instrument price DataFrame: the yfinance OHLCV history
columns plus any derived columns added by the indicator computations
(derived cells may be NaN). -/
structure PriceFrame where
  openC : List ℚ
  high : List ℚ
  low : List ℚ
  close : List ℚ
  volume : List ℚ
  extra : List (String × List FVal)
  deriving DecidableEq, Repr

/-- Column assignment on the derived-column table: `df[name] = col` replaces
an existing column of that name in place, otherwise appends it at the end
(pandas column-assignment semantics). -/
def setColList : List (String × List FVal) → String → List FVal → List (String × List FVal)
  | [], n, c => [(n, c)]
  | (m, d) :: rest, n, c =>
    if m = n then (n, c) :: rest else (m, d) :: setColList rest n c

/-- Column assignment `df[name] = col` on a frame. -/
def setExtra (df : PriceFrame) (n : String) (c : List FVal) : PriceFrame :=
  PriceFrame.mk df.openC df.high df.low df.close df.volume (setColList df.extra n c)

/-- Lookup of a derived column by name. -/
def lookupExtra (df : PriceFrame) (n : String) : Option (List FVal) :=
  df.extra.lookup n

/-- Cell of a derived column at an index (NaN when the column is missing or
the index is out of range). -/
def colAt (df : PriceFrame) (n : String) (i : ℕ) : FVal :=
  ((lookupExtra df n).getD []).getD i none

/-- Embedding of `calculate_macd` (`backend/service/macd.py` lines 24-53):
copy the frame, add fast/slow EMAs of Close, their difference `macd`, the
EMA-smoothed `signal`, and the `histogram` difference.  The only failure is
the pandas `ewm` span validation. -/
def calculate_macd (df : PriceFrame) (fast_period slow_period signal_period : ℕ) :
    Except CalcError PriceFrame := do
  let df_macd := df
  let ema_fast ← ewmMean fast_period df_macd.close
  let ema_slow ← ewmMean slow_period df_macd.close
  let df_macd := setExtra df_macd "ema_fast" (ema_fast.map some)
  let df_macd := setExtra df_macd "ema_slow" (ema_slow.map some)
  let macd := List.zipWith (fun a b => a - b) ema_fast ema_slow
  let df_macd := setExtra df_macd "macd" (macd.map some)
  let signalLine ← ewmMean signal_period macd
  let df_macd := setExtra df_macd "signal" (signalLine.map some)
  let histogram := List.zipWith (fun a b => a - b) macd signalLine
  let df_macd := setExtra df_macd "histogram" (histogram.map some)
  return df_macd

/-- Purely functional normal form of a successful `calculate_macd` run. -/
def stdMacdFrame (df : PriceFrame) (fast_period slow_period signal_period : ℕ) : PriceFrame :=
  let ema_fast := ewmRun fast_period df.close
  let ema_slow := ewmRun slow_period df.close
  let macd := List.zipWith (fun a b => a - b) ema_fast ema_slow
  let signalLine := ewmRun signal_period macd
  let histogram := List.zipWith (fun a b => a - b) macd signalLine
  setExtra (setExtra (setExtra (setExtra (setExtra df
    "ema_fast" (ema_fast.map some))
    "ema_slow" (ema_slow.map some))
    "macd" (macd.map some))
    "signal" (signalLine.map some))
    "histogram" (histogram.map some)

/-- Embedding of `calculate_custom_macd` (`backend/service/macd.py` lines
56-88): copy the frame and add simple moving averages `MA_{fast}`,
`MA_{slow}`, `MA_{longest}` of Close, the three pairwise differences (stored
under the hard-coded names `macd_10_30`, `macd_30_60`, `macd_10_60`), and
their rolling-mean signal lines.  The source reads each moving-average
column back from the frame; when two window parameters coincide the columns
carry identical values, so using the bound lists is equivalent.  No
parameter validation is performed: the rolling primitive accepts a zero
window. -/
def calculate_custom_macd (df : PriceFrame) (fast_ma slow_ma longest_ma signal_period : ℕ) :
    PriceFrame :=
  let closeCol : List FVal := df.close.map some
  let maFast := rollingMean fast_ma closeCol
  let maSlow := rollingMean slow_ma closeCol
  let maLong := rollingMean longest_ma closeCol
  let macd_10_30 := List.zipWith fSub maFast maSlow
  let macd_30_60 := List.zipWith fSub maSlow maLong
  let macd_10_60 := List.zipWith fSub maFast maLong
  let signal_10_30 := rollingMean signal_period macd_10_30
  let signal_30_60 := rollingMean signal_period macd_30_60
  let signal_10_60 := rollingMean signal_period macd_10_60
  setExtra (setExtra (setExtra (setExtra (setExtra (setExtra (setExtra (setExtra (setExtra df
    ("MA_" ++ toString fast_ma) maFast)
    ("MA_" ++ toString slow_ma) maSlow)
    ("MA_" ++ toString longest_ma) maLong)
    "macd_10_30" macd_10_30)
    "macd_30_60" macd_30_60)
    "macd_10_60" macd_10_60)
    "signal_10_30" signal_10_30)
    "signal_30_60" signal_30_60)
    "signal_10_60" signal_10_60

/-- Per-instrument snapshot row, the columns of the `stock_df` table built by
`main.py` (`Ticker`, `Index`, `Current_Price`, `Weekly_Price_Change`,
`Weekly_Percentage_Change`, `Monthly_Price_Change`,
`Monthly_Percentage_Change`). -/
structure StockRow where
  ticker : String
  indexName : String
  currentPrice : ℚ
  weeklyPriceChange : ℚ
  weeklyPctChange : ℚ
  monthlyPriceChange : ℚ
  monthlyPctChange : ℚ
  deriving DecidableEq, Repr

/-- Failure of the summary aggregation; pandas `idxmax`/`idxmin` raise a
`ValueError` on an empty column, which happens exactly when the universe is
empty — the spec names this failure `EmptyUniverse`. -/
inductive AggError where
  | emptyUniverse
  deriving DecidableEq, Repr

/-- Arithmetic mean of a column, as pandas `Series.mean()`: `NaN` (here
`none`) on an empty column. -/
def seriesMean (xs : List ℚ) : Option ℚ :=
  if xs = [] then none else some (xs.sum / (xs.length : ℚ))

/-- Scan keeping the first row attaining the running maximum of `key`. -/
def idxmaxGo (key : StockRow → ℚ) (best : StockRow) : List StockRow → StockRow
  | [] => best
  | r :: rs => if key best < key r then idxmaxGo key r rs else idxmaxGo key best rs

/-- Embedding of `df.loc[df[col].idxmax()]`: the first row attaining the
maximum of `key`; pandas raises on an empty column. -/
def idxmaxBy (key : StockRow → ℚ) : List StockRow → Except AggError StockRow
  | [] => Except.error AggError.emptyUniverse
  | r :: rs => Except.ok (idxmaxGo key r rs)

/-- Scan keeping the first row attaining the running minimum of `key`. -/
def idxminGo (key : StockRow → ℚ) (best : StockRow) : List StockRow → StockRow
  | [] => best
  | r :: rs => if key r < key best then idxminGo key r rs else idxminGo key best rs

/-- Embedding of `df.loc[df[col].idxmin()]`: the first row attaining the
minimum of `key`; pandas raises on an empty column. -/
def idxminBy (key : StockRow → ℚ) : List StockRow → Except AggError StockRow
  | [] => Except.error AggError.emptyUniverse
  | r :: rs => Except.ok (idxminGo key r rs)

/-- Result record of `_generate_summary_stats`
(`backend/service/framework.py` lines 261-282); the two means may be NaN as
values (modelled by `Option`). -/
structure SummaryStats where
  total_stocks : ℕ
  sp500_count : ℕ
  nasdaq_count : ℕ
  weekly_gainers : ℕ
  weekly_losers : ℕ
  monthly_gainers : ℕ
  monthly_losers : ℕ
  avg_weekly_change : Option ℚ
  avg_monthly_change : Option ℚ
  top_weekly_gainer : String
  top_weekly_loser : String
  deriving DecidableEq, Repr

/-- Count of rows satisfying a predicate (`len(df[mask])`). -/
def countP (p : StockRow → Bool) (rows : List StockRow) : ℕ :=
  (rows.filter p).length

/-- Embedding of `StockReportGenerator._generate_summary_stats`
(`backend/service/framework.py` lines 261-282).  The Python dict literal
evaluates every entry; the `idxmax`/`idxmin` calls raise on an empty table,
so the whole computation fails before the NaN means could be returned. -/
def generate_summary_stats (rows : List StockRow) : Except AggError SummaryStats := do
  let gainerRow ← idxmaxBy (fun r => r.weeklyPctChange) rows
  let loserRow ← idxminBy (fun r => r.weeklyPctChange) rows
  return SummaryStats.mk
    rows.length
    (countP (fun r => r.indexName == "S&P 500") rows)
    (countP (fun r => r.indexName == "NASDAQ 100") rows)
    (countP (fun r => decide (0 < r.weeklyPctChange)) rows)
    (countP (fun r => decide (r.weeklyPctChange < 0)) rows)
    (countP (fun r => decide (0 < r.monthlyPctChange)) rows)
    (countP (fun r => decide (r.monthlyPctChange < 0)) rows)
    (seriesMean (rows.map (fun r => r.weeklyPctChange)))
    (seriesMean (rows.map (fun r => r.monthlyPctChange)))
    gainerRow.ticker
    loserRow.ticker

/-- Recommendation record emitted by the rankers
(`backend/service/framework.py` lines 207-218 and 246-257).  The `reason`
string is generated deterministically from two figures of the same row; the
two numbers it is formatted from are carried here (`reasonMove`,
`reasonTrend`) — the decimal text rendering itself is presentation and is
not modelled. -/
structure RecommendationRecord where
  ticker : String
  indexName : String
  current_price : ℚ
  weekly_change : ℚ
  weekly_price_change : ℚ
  monthly_change : ℚ
  monthly_price_change : ℚ
  reasonMove : ℚ
  reasonTrend : ℚ
  deriving DecidableEq, Repr

/-- Buy-side filter (`framework.py` line 198):
`Weekly_Price_Change < -10` and `Monthly_Percentage_Change > 0`. -/
def buyPred (r : StockRow) : Bool :=
  decide (r.weeklyPriceChange < -10) && decide (0 < r.monthlyPctChange)

/-- Sell-side filter (`framework.py` line 237):
`Weekly_Price_Change > 10` and `Monthly_Percentage_Change < 0`. -/
def sellPred (r : StockRow) : Bool :=
  decide (10 < r.weeklyPriceChange) && decide (r.monthlyPctChange < 0)

/-- Ascending order on `Weekly_Price_Change`, the buy-side sort key. -/
def weeklyLE (a b : StockRow) : Prop := a.weeklyPriceChange ≤ b.weeklyPriceChange

instance : DecidableRel weeklyLE := fun a b =>
  inferInstanceAs (Decidable (a.weeklyPriceChange ≤ b.weeklyPriceChange))

instance : IsTotal StockRow weeklyLE := ⟨fun a b => le_total a.weeklyPriceChange b.weeklyPriceChange⟩

instance : IsTrans StockRow weeklyLE := ⟨fun _ _ _ hab hbc => le_trans hab hbc⟩

/-- Descending order on `Weekly_Percentage_Change`, the sell-side sort
order: `a` comes no later than `b` when `a`'s key is at least `b`'s. -/
def weeklyPctGE (a b : StockRow) : Prop := b.weeklyPctChange ≤ a.weeklyPctChange

instance : DecidableRel weeklyPctGE := fun a b =>
  inferInstanceAs (Decidable (b.weeklyPctChange ≤ a.weeklyPctChange))

instance : IsTotal StockRow weeklyPctGE := ⟨fun a b => le_total b.weeklyPctChange a.weeklyPctChange⟩

instance : IsTrans StockRow weeklyPctGE := ⟨fun _ _ _ hab hbc => le_trans hbc hab⟩

/-- Buy recommendation built from a row (`framework.py` lines 207-218); the
rationale figures are the weekly drop magnitude and the monthly trend. -/
def mkBuyRec (r : StockRow) : RecommendationRecord :=
  RecommendationRecord.mk r.ticker r.indexName r.currentPrice r.weeklyPctChange
    r.weeklyPriceChange r.monthlyPctChange r.monthlyPriceChange
    |r.weeklyPctChange| r.monthlyPctChange

/-- Sell recommendation built from a row (`framework.py` lines 246-257); the
rationale figures are the weekly spike and the monthly drop magnitude. -/
def mkSellRec (r : StockRow) : RecommendationRecord :=
  RecommendationRecord.mk r.ticker r.indexName r.currentPrice r.weeklyPctChange
    r.weeklyPriceChange r.monthlyPctChange r.monthlyPriceChange
    r.weeklyPctChange |r.monthlyPctChange|

/-- Embedding of `_generate_buy_recommendations` (`framework.py` lines
183-220): filter, `sort_values(by=Weekly_Price_Change, ascending=True)`,
`head(n)`, and build the record per row.  The ascending pandas sort is
modelled by a stable sort (numpy's sort degenerates to stable insertion
sort on the small arrays at issue; no property proved below depends on the
order among tied keys of an ascending sort). -/
def generate_buy_recommendations (rows : List StockRow) (n : ℕ) : List RecommendationRecord :=
  ((List.insertionSort weeklyLE (rows.filter buyPred)).take n).map mkBuyRec

/-- Embedding of `_generate_sell_recommendations` (`framework.py` lines
222-259): filter, `sort_values(by=Weekly_Percentage_Change,
ascending=False)`, `head(n)`, and build the record per row.  A descending
pandas single-column sort goes through `nargsort`, which reverses the
values before the stable ascending argsort and reverses the resulting
indexer after — a double reversal, so the net effect is the stable
descending order: keys descending, tied keys in input order.  It is
modelled by the stable insertion sort under the descending key order. -/
def generate_sell_recommendations (rows : List StockRow) (n : ℕ) : List RecommendationRecord :=
  ((List.insertionSort weeklyPctGE (rows.filter sellPred)).take n).map mkSellRec

/-- Value stored in the per-ticker result dict of `main.py`: a string
(`Ticker`, `Index`) or a number. -/
inductive EVal where
  | str (v : String)
  | num (v : ℚ)
  deriving DecidableEq, Repr

/-- Rounding to the nearest integer with ties to even, the behaviour of the
Python built-in `round`. -/
def roundHalfEven (q : ℚ) : ℚ :=
  let n : ℤ := ⌊q⌋
  if q - n < 1 / 2 then (n : ℚ)
  else if 1 / 2 < q - n then ((n + 1 : ℤ) : ℚ)
  else if Even n then (n : ℚ) else ((n + 1 : ℤ) : ℚ)

/-- Python `round(x, 2)`. -/
def round2 (x : ℚ) : ℚ := roundHalfEven (x * 100) / 100

/-- Weekly reference price (`main.py` line 82 and `1_Stock_Summary.py` lines
186-187): `close.iloc[-6]` when the series has at least 6 entries, else the
first close `close.iloc[0]` (the short-series fallback). -/
def week_ago_price (close : List ℚ) : ℚ :=
  if 6 ≤ close.length then close.getD (close.length - 6) 0 else close.getD 0 0

/-- Monthly reference price (`main.py` lines 87-88): `close.iloc[-22]` when
the series has at least 22 entries, else `close.iloc[0]`. -/
def month_ago_price (close : List ℚ) : ℚ :=
  if 22 ≤ close.length then close.getD (close.length - 22) 0 else close.getD 0 0

/-- Embedding of the per-ticker result-row construction of `get_stock_data`
(`main.py` lines 77-103): empty histories are skipped (`none`); otherwise
the dict with exactly the seven listed keys is appended.  Rational division
is total where Python float division by a zero reference would give an
infinity; the claims below only evaluate this at nonzero reference
prices. -/
def stockEntry (ticker indexName : String) (close : List ℚ) :
    Option (List (String × EVal)) :=
  if close = [] then none
  else
    let current_price := close.getLastD 0
    let week_ago := week_ago_price close
    let weekly_price_change := current_price - week_ago
    let weekly_percentage_change := weekly_price_change / week_ago * 100
    let month_ago := month_ago_price close
    let monthly_price_change := current_price - month_ago
    let monthly_percentage_change := monthly_price_change / month_ago * 100
    some [("Ticker", EVal.str ticker),
          ("Index", EVal.str indexName),
          ("Current_Price", EVal.num (round2 current_price)),
          ("Weekly_Price_Change", EVal.num (round2 weekly_price_change)),
          ("Weekly_Percentage_Change", EVal.num (round2 weekly_percentage_change)),
          ("Monthly_Price_Change", EVal.num (round2 monthly_price_change)),
          ("Monthly_Percentage_Change", EVal.num (round2 monthly_percentage_change))]

/-! Concrete inputs used by witnesses and counterexamples. -/

/-- Small concrete OHLCV frame. -/
def exFrame : PriceFrame := PriceFrame.mk [1, 2] [1, 2] [1, 2] [1, 2] [5, 5] []

/-- Standard MACD output on `exFrame` with the default 12/26/9 parameters. -/
def exStdOut : PriceFrame := stdMacdFrame exFrame 12 26 9

/-- Snapshot row T1 of the three-instrument example universe: weekly price
change −15, monthly percentage change +5. -/
def exT1 : StockRow := StockRow.mk "T1" "S&P 500" 100 (-15) (-15) 5 5

/-- Snapshot row T2: weekly price change −5, monthly percentage change +5. -/
def exT2 : StockRow := StockRow.mk "T2" "S&P 500" 100 (-5) (-5) 5 5

/-- Snapshot row T3: weekly price change −20, monthly percentage change −1. -/
def exT3 : StockRow := StockRow.mk "T3" "NASDAQ 100" 100 (-20) (-20) (-1) (-1)

/-- The three-instrument example universe of the spec. -/
def exUniverse : List StockRow := [exT1, exT2, exT3]

/-- Sell-side row A: qualifies (`weekly price +11 > 10`, monthly −1 < 0) and
ties with row B on the sort key `Weekly_Percentage_Change = 5`. -/
def exSellA : StockRow := StockRow.mk "A" "S&P 500" 50 11 5 (-1) (-1)

/-- Sell-side row B: same figures as A, different ticker. -/
def exSellB : StockRow := StockRow.mk "B" "S&P 500" 50 11 5 (-1) (-1)

/-- Result row produced by `stockEntry` for a 3-close history `[100, 101,
102]`: the weekly and monthly references both fall back to the first close,
and exactly the seven listed keys are present. -/
def exRow : List (String × EVal) :=
  [("Ticker", EVal.str "T"),
   ("Index", EVal.str "SPY"),
   ("Current_Price", EVal.num 102),
   ("Weekly_Price_Change", EVal.num 2),
   ("Weekly_Percentage_Change", EVal.num 2),
   ("Monthly_Price_Change", EVal.num 2),
   ("Monthly_Percentage_Change", EVal.num 2)]

/-- Names of the columns added by `calculate_macd`. -/
def stdDerivedNames : List String := ["ema_fast", "ema_slow", "macd", "signal", "histogram"]

/-- Names of the columns added by `calculate_custom_macd`. -/
def customDerivedNames (fast_ma slow_ma longest_ma : ℕ) : List String :=
  ["MA_" ++ toString fast_ma, "MA_" ++ toString slow_ma, "MA_" ++ toString longest_ma,
   "macd_10_30", "macd_30_60", "macd_10_60",
   "signal_10_30", "signal_30_60", "signal_10_60"]

/-! Helper lemmas about the embedded operations. -/

lemma lookup_setColList_self (l : List (String × List FVal)) (n : String) (c : List FVal) :
    (setColList l n c).lookup n = some c := by
  induction l with
  | nil => simp [setColList, List.lookup]
  | cons hd tl ih =>
    obtain ⟨m, d⟩ := hd
    by_cases h : m = n
    · simp [setColList, h, List.lookup]
    · have hb : (n == m) = false := beq_eq_false_iff_ne.mpr (Ne.symm h)
      simp [setColList, h, List.lookup, ih, hb]

lemma lookup_setColList_ne (l : List (String × List FVal)) {m n : String}
    (c : List FVal) (h : m ≠ n) : (setColList l n c).lookup m = l.lookup m := by
  have hb : (m == n) = false := beq_eq_false_iff_ne.mpr h
  induction l with
  | nil => simp [setColList, List.lookup, hb]
  | cons hd tl ih =>
    obtain ⟨k, d⟩ := hd
    by_cases hk : k = n
    · subst hk
      simp [setColList, List.lookup, hb]
    · simp [setColList, hk, List.lookup, ih]

lemma lookup_setColList_isSome (l : List (String × List FVal)) {m : String} (n : String)
    (c : List FVal) (h : (l.lookup m).isSome) :
    ((setColList l n c).lookup m).isSome := by
  by_cases hm : m = n
  · subst hm
    simp [lookup_setColList_self]
  · rwa [lookup_setColList_ne l c hm]

lemma lookupExtra_setExtra_self (df : PriceFrame) (n : String) (c : List FVal) :
    lookupExtra (setExtra df n c) n = some c :=
  lookup_setColList_self df.extra n c

lemma lookupExtra_setExtra_ne (df : PriceFrame) {m n : String} (c : List FVal)
    (h : m ≠ n) : lookupExtra (setExtra df n c) m = lookupExtra df m :=
  lookup_setColList_ne df.extra c h

lemma lookupExtra_setExtra_isSome (df : PriceFrame) {m : String} (n : String)
    (c : List FVal) (h : (lookupExtra df m).isSome) :
    (lookupExtra (setExtra df n c) m).isSome :=
  lookup_setColList_isSome df.extra n c h

lemma setExtra_openC (df : PriceFrame) (n : String) (c : List FVal) :
    (setExtra df n c).openC = df.openC := rfl

lemma setExtra_high (df : PriceFrame) (n : String) (c : List FVal) :
    (setExtra df n c).high = df.high := rfl

lemma setExtra_low (df : PriceFrame) (n : String) (c : List FVal) :
    (setExtra df n c).low = df.low := rfl

lemma setExtra_close (df : PriceFrame) (n : String) (c : List FVal) :
    (setExtra df n c).close = df.close := rfl

lemma setExtra_volume (df : PriceFrame) (n : String) (c : List FVal) :
    (setExtra df n c).volume = df.volume := rfl

lemma ewmRunAux_length (a p : ℚ) : ∀ xs : List ℚ, (ewmRunAux a p xs).length = xs.length
  | [] => rfl
  | x :: xs => by simp [ewmRunAux, ewmRunAux_length a _ xs]

lemma ewmRun_length (span : ℕ) (xs : List ℚ) : (ewmRun span xs).length = xs.length := by
  cases xs with
  | nil => rfl
  | cons x rest => simp [ewmRun, ewmRunAux_length]

lemma ewmRunAux_getD_succ (a : ℚ) :
    ∀ (xs : List ℚ) (p : ℚ) (i : ℕ), i + 1 < xs.length →
      (ewmRunAux a p xs).getD (i + 1) 0 =
        a * xs.getD (i + 1) 0 + (1 - a) * (ewmRunAux a p xs).getD i 0
  | [], _, i, h => by simp at h
  | z :: rest, p, 0, h => by
    match rest, h with
    | w :: rest2, _ => simp [ewmRunAux]
  | z :: rest, p, (k + 1), h => by
    have hlt : k + 1 < rest.length := by
      simpa [List.length_cons] using h
    simpa [ewmRunAux] using ewmRunAux_getD_succ a rest (a * z + (1 - a) * p) k hlt

lemma zipWith_getD (f : ℚ → ℚ → ℚ) :
    ∀ (as bs : List ℚ) (i : ℕ), i < as.length → i < bs.length →
      (List.zipWith f as bs).getD i 0 = f (as.getD i 0) (bs.getD i 0)
  | [], _, i, ha, _ => by simp at ha
  | _ :: _, [], i, _, hb => by simp at hb
  | a :: as, b :: bs, 0, _, _ => by simp
  | a :: as, b :: bs, (i + 1), ha, hb => by
    have ha' : i < as.length := by simpa using ha
    have hb' : i < bs.length := by simpa using hb
    simpa using zipWith_getD f as bs i ha' hb'

lemma map_some_getD : ∀ (l : List ℚ) (i : ℕ), i < l.length →
    (l.map some).getD i none = some (l.getD i 0)
  | [], i, h => by simp at h
  | x :: xs, 0, _ => rfl
  | x :: xs, (i + 1), h => by
    have h' : i < xs.length := by simpa using h
    simpa using map_some_getD xs i h'

lemma reduceOption_map_some (l : List ℚ) : (l.map some).reduceOption = l := by
  induction l with
  | nil => rfl
  | cons x xs ih => simp [List.reduceOption_cons_of_some, ih]

lemma calculate_macd_ok (df : PriceFrame) (f s g : ℕ) (hf : 1 ≤ f) (hs : 1 ≤ s) (hg : 1 ≤ g) :
    calculate_macd df f s g = Except.ok (stdMacdFrame df f s g) := by
  have hf' : ¬ f < 1 := Nat.not_lt.mpr hf
  have hs' : ¬ s < 1 := Nat.not_lt.mpr hs
  have hg' : ¬ g < 1 := Nat.not_lt.mpr hg
  simp [calculate_macd, stdMacdFrame, ewmMean, hf', hs', hg', Bind.bind, Except.bind,
    Pure.pure, Except.pure]

lemma calculate_macd_err (df : PriceFrame) (f s g : ℕ) (h : f < 1 ∨ s < 1 ∨ g < 1) :
    calculate_macd df f s g = Except.error CalcError.invalidSpan := by
  by_cases hf : f < 1
  · simp [calculate_macd, ewmMean, hf, Bind.bind, Except.bind]
  · by_cases hs : s < 1
    · simp [calculate_macd, ewmMean, hf, hs, Bind.bind, Except.bind]
    · have hg : g < 1 := by tauto
      simp [calculate_macd, ewmMean, hf, hs, hg, Bind.bind, Except.bind]

lemma calculate_macd_ok_inv {df out : PriceFrame} {f s g : ℕ}
    (h : calculate_macd df f s g = Except.ok out) :
    1 ≤ f ∧ 1 ≤ s ∧ 1 ≤ g ∧ out = stdMacdFrame df f s g := by
  by_cases hf : f < 1
  · rw [calculate_macd_err df f s g (Or.inl hf)] at h
    exact absurd h (by simp)
  · by_cases hs : s < 1
    · rw [calculate_macd_err df f s g (Or.inr (Or.inl hs))] at h
      exact absurd h (by simp)
    · by_cases hg : g < 1
      · rw [calculate_macd_err df f s g (Or.inr (Or.inr hg))] at h
        exact absurd h (by simp)
      · rw [calculate_macd_ok df f s g (Nat.not_lt.mp hf) (Nat.not_lt.mp hs)
          (Nat.not_lt.mp hg)] at h
        exact ⟨Nat.not_lt.mp hf, Nat.not_lt.mp hs, Nat.not_lt.mp hg,
          (Except.ok.injEq _ _ ▸ h).symm⟩

/-! Claim theorems. -/

/-- C1: the claim states the classifier outputs Bearish iff the standard MACD
is below its signal line, the custom fast-vs-slow MACD is below its own
signal line, and the standard MACD is below 0.  The code fails this claim:
at the input `last_macd = -2`, `last_signal = -1`, `last_custom_macd = -3`,
`last_custom_signal = -1` the spec rule requires Bearish, yet the source
classifier (whose Bearish branch compares `last_custom_macd` with itself)
returns Neutral. -/
theorem C1_bearish_rule_failing_input :
    macd_signal (some (-2)) (some (-1)) (some (-3)) (some (-1)) = Signal.Neutral ∧
    macdSignalSpec (some (-2)) (some (-1)) (some (-3)) (some (-1)) = Signal.Bearish ∧
    Signal.Neutral ≠ Signal.Bearish := by
  decide

/-- C2: in the classifier as written, the Bearish branch tests
`last_custom_macd < last_custom_macd`, which is false for every cell
(including the NaN cell, for which every comparison is false); hence the
output is always Bullish or Neutral and the Bearish branch is unreachable. -/
theorem C2_bearish_unreachable :
    (∀ c : FVal, fLt c c = false) ∧
    ∀ a b c d : FVal,
      macd_signal a b c d = Signal.Bullish ∨ macd_signal a b c d = Signal.Neutral := by
  have hself : ∀ c : FVal, fLt c c = false := by
    intro c
    cases c with
    | none => rfl
    | some x => simp [fLt]
  refine ⟨hself, ?_⟩
  intro a b c d
  by_cases h1 : (fGt a b && fGt c d && fGt a (some 0)) = true
  · left
    simp [macd_signal, h1]
  · right
    simp [macd_signal, h1, hself c]

/-- C3: the summary aggregation on an empty universe fails with the
EmptyUniverse error (the `idxmax` of an empty column raises before the
record is returned), and a successfully returned record never carries a NaN
mean weekly or monthly percentage change. -/
theorem C3_empty_universe :
    generate_summary_stats [] = Except.error AggError.emptyUniverse ∧
    ∀ (rows : List StockRow) (s : SummaryStats), generate_summary_stats rows = Except.ok s →
      s.avg_weekly_change ≠ none ∧ s.avg_monthly_change ≠ none := by
  refine ⟨rfl, ?_⟩
  intro rows s h
  cases rows with
  | nil =>
    exact absurd h (by simp [generate_summary_stats, idxmaxBy, Bind.bind, Except.bind])
  | cons r rest =>
    simp only [generate_summary_stats, idxmaxBy, idxminBy, Bind.bind, Except.bind,
      Pure.pure, Except.pure, Except.ok.injEq] at h
    rw [← h]
    constructor <;> simp [seriesMean]

/-- Witness for C3: a one-row universe succeeds and its means are defined. -/
theorem C3_empty_universe_witness :
    (SummaryStats.mk 1 1 0 0 1 1 0 (some (-15)) (some 5) "T1" "T1").avg_weekly_change ≠ none ∧
    (SummaryStats.mk 1 1 0 0 1 1 0 (some (-15)) (some 5) "T1" "T1").avg_monthly_change ≠ none := by
  have h : generate_summary_stats [exT1] =
      Except.ok (SummaryStats.mk 1 1 0 0 1 1 0 (some (-15)) (some 5) "T1" "T1") := by
    simp [generate_summary_stats, idxmaxBy, idxminBy, idxmaxGo, idxminGo, countP,
      seriesMean, exT1, Bind.bind, Except.bind, Pure.pure, Except.pure]
  exact C3_empty_universe.2 [exT1] _ h

/-- Counterexample for C4: on the 3-close series `[100, 101, 102]` (shorter
than `lookback_periods + 1 = 6`) the returned row uses the first close 100
as reference (so the weekly price change is 2), but it carries no
`short_window_used` key at all — the claim that the result carries such a
flag set to true is false at this input. -/
theorem C4_no_flag_counterexample :
    stockEntry "T" "SPY" [100, 101, 102] = some exRow ∧
    exRow.lookup "short_window_used" = none := by
  constructor
  · simp [stockEntry, exRow, week_ago_price, month_ago_price, round2, roundHalfEven]
    norm_num
  · decide

/-- C4 amended: with fewer than `lookback_periods + 1` closes the weekly
reference price is the first close `close[0]`, with at least that many it is
the close `lookback_periods` trading days before the last
(`close.iloc[-(lookback_periods+1)]`); the returned row carries only the
seven Ticker/Index/price-change keys — no `short_window_used` flag is ever
returned, so the fallback is not surfaced to the caller. -/
theorem C4_short_series_fallback :
    (∀ close : List ℚ, close ≠ [] →
      (close.length < 6 → week_ago_price close = close.getD 0 0) ∧
      (6 ≤ close.length → week_ago_price close = close.getD (close.length - 6) 0)) ∧
    (∀ (t ix : String) (close : List ℚ) (row : List (String × EVal)),
      stockEntry t ix close = some row → row.lookup "short_window_used" = none) := by
  constructor
  · intro close _
    constructor
    · intro hlt
      rw [week_ago_price, if_neg (Nat.not_le.mpr hlt)]
    · intro hge
      rw [week_ago_price, if_pos hge]
  · intro t ix close row h
    by_cases hc : close = []
    · simp [stockEntry, hc] at h
    · simp only [stockEntry, hc, if_false, ite_false, Option.some.injEq] at h
      rw [← h]
      simp [List.lookup]

/-- Witness for C4: the fallback and missing-flag facts at the 3-close
series. -/
theorem C4_short_series_fallback_witness :
    week_ago_price [100, 101, 102] = ([100, 101, 102] : List ℚ).getD 0 0 ∧
    exRow.lookup "short_window_used" = none := by
  constructor
  · exact (C4_short_series_fallback.1 [100, 101, 102] (by decide)).1 (by decide)
  · refine C4_short_series_fallback.2 "T" "SPY" [100, 101, 102] exRow ?_
    simp [stockEntry, exRow, week_ago_price, month_ago_price, round2, roundHalfEven]
    norm_num

/-- C5: `rank_buys` returns exactly the instruments with weekly price change
below −10 and positive monthly percentage change, sorted ascending by weekly
price change, truncated to at most `n` records; on the three-instrument
example universe with `n = 2` the result is exactly `[T1]`, and when no
instrument qualifies the result is empty (not an error). -/
theorem C5_rank_buys :
    (∀ (rows : List StockRow) (n : ℕ),
      (∀ rec ∈ generate_buy_recommendations rows n,
        rec.weekly_price_change < -10 ∧ 0 < rec.monthly_change) ∧
      (generate_buy_recommendations rows n).length = min n (rows.filter buyPred).length ∧
      List.Sorted (fun x y : RecommendationRecord => x.weekly_price_change ≤ y.weekly_price_change)
        (generate_buy_recommendations rows n) ∧
      ((rows.filter buyPred).length ≤ n →
        (generate_buy_recommendations rows n).Perm ((rows.filter buyPred).map mkBuyRec))) ∧
    generate_buy_recommendations exUniverse 2 = [mkBuyRec exT1] ∧
    generate_buy_recommendations [exT2] 3 = [] := by
  refine ⟨?_, by decide, by decide⟩
  intro rows n
  have hperm := List.perm_insertionSort weeklyLE (rows.filter buyPred)
  refine ⟨?_, ?_, ?_, ?_⟩
  · intro rec hrec
    obtain ⟨r, hr, hmk⟩ := List.mem_map.mp hrec
    have hr2 : r ∈ List.insertionSort weeklyLE (rows.filter buyPred) :=
      (List.take_sublist n _).subset hr
    have hr3 : r ∈ rows.filter buyPred := hperm.mem_iff.mp hr2
    have hpred : buyPred r = true := (List.mem_filter.mp hr3).2
    simp only [buyPred, Bool.and_eq_true, decide_eq_true_eq] at hpred
    rw [← hmk]
    exact hpred
  · simp [generate_buy_recommendations, List.length_map, List.length_take, hperm.length_eq]
  · have hs := List.sorted_insertionSort weeklyLE (rows.filter buyPred)
    have htake : List.Pairwise weeklyLE ((List.insertionSort weeklyLE (rows.filter buyPred)).take n) :=
      hs.sublist (List.take_sublist n _)
    exact htake.map mkBuyRec (fun a b hab => hab)
  · intro hle
    have hlen : (List.insertionSort weeklyLE (rows.filter buyPred)).length ≤ n := by
      rw [hperm.length_eq]
      exact hle
    unfold generate_buy_recommendations
    rw [List.take_of_length_le hlen]
    exact hperm.map mkBuyRec

/-- Witness for C5: the sole qualifying row of the example universe
satisfies both filter bounds, and with room for every qualifier the output
is a permutation of the qualifying rows. -/
theorem C5_rank_buys_witness :
    ((mkBuyRec exT1).weekly_price_change < -10 ∧ 0 < (mkBuyRec exT1).monthly_change) ∧
    (generate_buy_recommendations exUniverse 1).Perm ((exUniverse.filter buyPred).map mkBuyRec) := by
  constructor
  · exact (C5_rank_buys.1 exUniverse 2).1 (mkBuyRec exT1) (by decide)
  · exact (C5_rank_buys.1 exUniverse 1).2.2.2 (by decide)

/-- C7: the exponential moving average of a non-empty close series with any
span ≥ 1 has the same length as the input, starts at the first close
(unadjusted seed), and satisfies the recurrence
`ema[i+1] = α·close[i+1] + (1−α)·ema[i]` with `α = 2/(span+1)`. -/
theorem C7_ema_recurrence (span : ℕ) (xs : List ℚ) (hspan : 1 ≤ span) (hne : xs ≠ []) :
    (ewmRun span xs).length = xs.length ∧
    (ewmRun span xs).getD 0 0 = xs.getD 0 0 ∧
    ∀ i, i + 1 < xs.length →
      (ewmRun span xs).getD (i + 1) 0 =
        ewmAlpha span * xs.getD (i + 1) 0 + (1 - ewmAlpha span) * (ewmRun span xs).getD i 0 := by
  obtain ⟨x, rest, rfl⟩ := List.exists_cons_of_ne_nil hne
  refine ⟨ewmRun_length span _, rfl, ?_⟩
  intro i hi
  cases i with
  | zero =>
    cases rest with
    | nil => simp at hi
    | cons z rest2 => simp [ewmRun, ewmRunAux]
  | succ k =>
    have hk : k + 1 < rest.length := by simpa using hi
    have haux := ewmRunAux_getD_succ (ewmAlpha span) rest x k hk
    simpa [ewmRun] using haux

/-- Witness for C7: the recurrence at the second entry of a 2-close series
with span 3. -/
theorem C7_ema_recurrence_witness :
    (ewmRun 3 [1, 4]).length = ([1, 4] : List ℚ).length ∧
    (ewmRun 3 [1, 4]).getD 1 0 =
      ewmAlpha 3 * ([1, 4] : List ℚ).getD 1 0 + (1 - ewmAlpha 3) * (ewmRun 3 [1, 4]).getD 0 0 := by
  have h := C7_ema_recurrence 3 [1, 4] (by decide) (by decide)
  exact ⟨h.1, h.2.2 0 (by decide)⟩

/-- C8: on every successful standard-MACD run, the signal column is exactly
the exponential moving average (over the signal span) of the macd column,
and at every index of the input series the macd cell is exactly the fast
EMA minus the slow EMA while the histogram cell is exactly macd minus
signal — equalities of rationals, not approximations. -/
theorem C8_macd_relations (df : PriceFrame) (f s g : ℕ) (out : PriceFrame)
    (h : calculate_macd df f s g = Except.ok out) :
    lookupExtra out "signal" =
      (lookupExtra out "macd").map (fun c => (ewmRun g c.reduceOption).map some) ∧
    ∀ i, i < df.close.length →
      colAt out "macd" i = fSub (colAt out "ema_fast" i) (colAt out "ema_slow" i) ∧
      colAt out "histogram" i = fSub (colAt out "macd" i) (colAt out "signal" i) := by
  obtain ⟨-, -, -, rfl⟩ := calculate_macd_ok_inv h
  have hF : lookupExtra (stdMacdFrame df f s g) "ema_fast" =
      some ((ewmRun f df.close).map some) := by
    simp only [stdMacdFrame]
    rw [lookupExtra_setExtra_ne _ _ (by decide), lookupExtra_setExtra_ne _ _ (by decide),
      lookupExtra_setExtra_ne _ _ (by decide), lookupExtra_setExtra_ne _ _ (by decide),
      lookupExtra_setExtra_self]
  have hS : lookupExtra (stdMacdFrame df f s g) "ema_slow" =
      some ((ewmRun s df.close).map some) := by
    simp only [stdMacdFrame]
    rw [lookupExtra_setExtra_ne _ _ (by decide), lookupExtra_setExtra_ne _ _ (by decide),
      lookupExtra_setExtra_ne _ _ (by decide), lookupExtra_setExtra_self]
  have hM : lookupExtra (stdMacdFrame df f s g) "macd" =
      some ((List.zipWith (fun a b => a - b) (ewmRun f df.close) (ewmRun s df.close)).map some) := by
    simp only [stdMacdFrame]
    rw [lookupExtra_setExtra_ne _ _ (by decide), lookupExtra_setExtra_ne _ _ (by decide),
      lookupExtra_setExtra_self]
  have hG : lookupExtra (stdMacdFrame df f s g) "signal" =
      some ((ewmRun g (List.zipWith (fun a b => a - b) (ewmRun f df.close)
        (ewmRun s df.close))).map some) := by
    simp only [stdMacdFrame]
    rw [lookupExtra_setExtra_ne _ _ (by decide), lookupExtra_setExtra_self]
  have hH : lookupExtra (stdMacdFrame df f s g) "histogram" =
      some ((List.zipWith (fun a b => a - b)
        (List.zipWith (fun a b => a - b) (ewmRun f df.close) (ewmRun s df.close))
        (ewmRun g (List.zipWith (fun a b => a - b) (ewmRun f df.close)
          (ewmRun s df.close)))).map some) := by
    simp only [stdMacdFrame]
    rw [lookupExtra_setExtra_self]
  have hlenF : (ewmRun f df.close).length = df.close.length := ewmRun_length f _
  have hlenS : (ewmRun s df.close).length = df.close.length := ewmRun_length s _
  have hlenM : (List.zipWith (fun a b : ℚ => a - b) (ewmRun f df.close)
      (ewmRun s df.close)).length = df.close.length := by
    simp [List.length_zipWith, hlenF, hlenS]
  have hlenG : (ewmRun g (List.zipWith (fun a b : ℚ => a - b) (ewmRun f df.close)
      (ewmRun s df.close))).length = df.close.length := by
    rw [ewmRun_length, hlenM]
  constructor
  · rw [hG, hM]
    simp [reduceOption_map_some]
  · intro i hi
    constructor
    · rw [colAt, colAt, colAt, hM, hF, hS]
      simp only [Option.getD_some]
      rw [map_some_getD _ i (by rw [hlenM]; exact hi),
        map_some_getD _ i (by rw [hlenF]; exact hi),
        map_some_getD _ i (by rw [hlenS]; exact hi),
        zipWith_getD _ _ _ i (by rw [hlenF]; exact hi) (by rw [hlenS]; exact hi)]
      rfl
    · rw [colAt, colAt, colAt, hH, hM, hG]
      simp only [Option.getD_some]
      rw [map_some_getD _ i (by simp [List.length_zipWith, hlenM, hlenG]; exact hi),
        map_some_getD _ i (by rw [hlenM]; exact hi),
        map_some_getD _ i (by rw [hlenG]; exact hi),
        zipWith_getD _ _ _ i (by rw [hlenM]; exact hi) (by rw [hlenG]; exact hi)]
      rfl

/-- Witness for C8: the relations at index 0 of a concrete 2-close frame
with the default 12/26/9 parameters. -/
theorem C8_macd_relations_witness :
    colAt exStdOut "macd" 0 = fSub (colAt exStdOut "ema_fast" 0) (colAt exStdOut "ema_slow" 0) ∧
    colAt exStdOut "histogram" 0 = fSub (colAt exStdOut "macd" 0) (colAt exStdOut "signal" 0) :=
  (C8_macd_relations exFrame 12 26 9 exStdOut rfl).2 0 (by decide)

/-- Counterexample for C9: the custom computation with a fast window of 0
(strictly less than 1) does not fail at all — it silently completes,
producing an all-undefined `MA_0` column on a concrete 2-close frame. -/
theorem C9_zero_window_accepted :
    calculate_custom_macd exFrame 0 30 60 9 =
      PriceFrame.mk [1, 2] [1, 2] [1, 2] [1, 2] [5, 5]
        [("MA_0", [none, none]), ("MA_30", [none, none]), ("MA_60", [none, none]),
         ("macd_10_30", [none, none]), ("macd_30_60", [none, none]),
         ("macd_10_60", [none, none]), ("signal_10_30", [none, none]),
         ("signal_30_60", [none, none]), ("signal_10_60", [none, none])] := by
  decide

/-- C9 amended: a span below 1 given to the standard MACD computation makes
it fail (the exponential-smoothing primitive rejects spans below 1 when its
window object is constructed), but the custom computation performs no such
validation: a rolling window of 0 is silently accepted and yields an
all-undefined moving-average column instead of an error. -/
theorem C9_param_validation :
    (∀ (df : PriceFrame) (f s g : ℕ), f < 1 ∨ s < 1 ∨ g < 1 →
      calculate_macd df f s g = Except.error CalcError.invalidSpan) ∧
    (∀ df : PriceFrame,
      lookupExtra (calculate_custom_macd df 0 30 60 9) "MA_0" =
        some (List.replicate df.close.length none)) := by
  constructor
  · exact fun df f s g h => calculate_macd_err df f s g h
  · intro df
    have hroll : rollingMean 0 (df.close.map some) = List.replicate df.close.length none := by
      rw [rollingMean, List.length_map]
      refine List.eq_replicate_iff.mpr ⟨by simp, ?_⟩
      intro x hx
      simp only [List.mem_map] at hx
      obtain ⟨i, -, hxi⟩ := hx
      simp at hxi
      exact hxi.symm
    have hname : ("MA_" ++ toString (0 : ℕ)) = "MA_0" := rfl
    simp only [calculate_custom_macd, hname]
    rw [lookupExtra_setExtra_ne _ _ (by decide), lookupExtra_setExtra_ne _ _ (by decide),
      lookupExtra_setExtra_ne _ _ (by decide), lookupExtra_setExtra_ne _ _ (by decide),
      lookupExtra_setExtra_ne _ _ (by decide), lookupExtra_setExtra_ne _ _ (by decide)]
    rw [lookupExtra_setExtra_ne _ _ (by decide), lookupExtra_setExtra_ne _ _ (by decide),
      lookupExtra_setExtra_self]
    rw [hroll]

/-- Witness for C9 amended: a zero fast span fails the standard computation
on the concrete frame, while the custom computation accepts a zero window
there. -/
theorem C9_param_validation_witness :
    calculate_macd exFrame 0 26 9 = Except.error CalcError.invalidSpan ∧
    lookupExtra (calculate_custom_macd exFrame 0 30 60 9) "MA_0" =
      some (List.replicate exFrame.close.length none) :=
  ⟨C9_param_validation.1 exFrame 0 26 9 (Or.inl (by decide)),
   C9_param_validation.2 exFrame⟩

/-- C10: both MACD computations leave every input column unchanged in the
returned frame — the OHLCV base columns are equal to the input's and every
pre-existing derived column not named by the computation keeps its value —
and the derived indicator columns are present in the returned frame. -/
theorem C10_frame_preservation :
    (∀ (df : PriceFrame) (f s g : ℕ) (out : PriceFrame),
      calculate_macd df f s g = Except.ok out →
      (out.openC = df.openC ∧ out.high = df.high ∧ out.low = df.low ∧
        out.close = df.close ∧ out.volume = df.volume) ∧
      (∀ n, n ∉ stdDerivedNames → lookupExtra out n = lookupExtra df n) ∧
      (∀ n, n ∈ stdDerivedNames → (lookupExtra out n).isSome)) ∧
    (∀ (df : PriceFrame) (fm sm lm g : ℕ),
      ((calculate_custom_macd df fm sm lm g).openC = df.openC ∧
        (calculate_custom_macd df fm sm lm g).high = df.high ∧
        (calculate_custom_macd df fm sm lm g).low = df.low ∧
        (calculate_custom_macd df fm sm lm g).close = df.close ∧
        (calculate_custom_macd df fm sm lm g).volume = df.volume) ∧
      (∀ n, n ∉ customDerivedNames fm sm lm →
        lookupExtra (calculate_custom_macd df fm sm lm g) n = lookupExtra df n) ∧
      (∀ n, n ∈ customDerivedNames fm sm lm →
        (lookupExtra (calculate_custom_macd df fm sm lm g) n).isSome)) := by
  constructor
  · intro df f s g out h
    obtain ⟨-, -, -, rfl⟩ := calculate_macd_ok_inv h
    refine ⟨⟨rfl, rfl, rfl, rfl, rfl⟩, ?_, ?_⟩
    · intro n hn
      simp only [stdDerivedNames, List.mem_cons, List.not_mem_nil, or_false] at hn
      push_neg at hn
      obtain ⟨h1, h2, h3, h4, h5⟩ := hn
      simp only [stdMacdFrame]
      rw [lookupExtra_setExtra_ne _ _ h5, lookupExtra_setExtra_ne _ _ h4,
        lookupExtra_setExtra_ne _ _ h3, lookupExtra_setExtra_ne _ _ h2,
        lookupExtra_setExtra_ne _ _ h1]
    · intro n hn
      simp only [stdDerivedNames, List.mem_cons, List.not_mem_nil, or_false] at hn
      simp only [stdMacdFrame]
      rcases hn with rfl | rfl | rfl | rfl | rfl
      · apply lookupExtra_setExtra_isSome
        apply lookupExtra_setExtra_isSome
        apply lookupExtra_setExtra_isSome
        apply lookupExtra_setExtra_isSome
        rw [lookupExtra_setExtra_self]
        rfl
      · apply lookupExtra_setExtra_isSome
        apply lookupExtra_setExtra_isSome
        apply lookupExtra_setExtra_isSome
        rw [lookupExtra_setExtra_self]
        rfl
      · apply lookupExtra_setExtra_isSome
        apply lookupExtra_setExtra_isSome
        rw [lookupExtra_setExtra_self]
        rfl
      · apply lookupExtra_setExtra_isSome
        rw [lookupExtra_setExtra_self]
        rfl
      · rw [lookupExtra_setExtra_self]
        rfl
  · intro df fm sm lm g
    refine ⟨⟨?_, ?_, ?_, ?_, ?_⟩, ?_, ?_⟩
    · simp only [calculate_custom_macd, setExtra_openC]
    · simp only [calculate_custom_macd, setExtra_high]
    · simp only [calculate_custom_macd, setExtra_low]
    · simp only [calculate_custom_macd, setExtra_close]
    · simp only [calculate_custom_macd, setExtra_volume]
    · intro n hn
      simp only [customDerivedNames, List.mem_cons, List.not_mem_nil, or_false] at hn
      push_neg at hn
      obtain ⟨h1, h2, h3, h4, h5, h6, h7, h8, h9⟩ := hn
      simp only [calculate_custom_macd]
      rw [lookupExtra_setExtra_ne _ _ h9, lookupExtra_setExtra_ne _ _ h8,
        lookupExtra_setExtra_ne _ _ h7, lookupExtra_setExtra_ne _ _ h6,
        lookupExtra_setExtra_ne _ _ h5, lookupExtra_setExtra_ne _ _ h4,
        lookupExtra_setExtra_ne _ _ h3, lookupExtra_setExtra_ne _ _ h2,
        lookupExtra_setExtra_ne _ _ h1]
    · intro n hn
      simp only [customDerivedNames, List.mem_cons, List.not_mem_nil, or_false] at hn
      simp only [calculate_custom_macd]
      rcases hn with rfl | rfl | rfl | rfl | rfl | rfl | rfl | rfl | rfl
      · apply lookupExtra_setExtra_isSome
        apply lookupExtra_setExtra_isSome
        apply lookupExtra_setExtra_isSome
        apply lookupExtra_setExtra_isSome
        apply lookupExtra_setExtra_isSome
        apply lookupExtra_setExtra_isSome
        apply lookupExtra_setExtra_isSome
        apply lookupExtra_setExtra_isSome
        rw [lookupExtra_setExtra_self]
        rfl
      · apply lookupExtra_setExtra_isSome
        apply lookupExtra_setExtra_isSome
        apply lookupExtra_setExtra_isSome
        apply lookupExtra_setExtra_isSome
        apply lookupExtra_setExtra_isSome
        apply lookupExtra_setExtra_isSome
        apply lookupExtra_setExtra_isSome
        rw [lookupExtra_setExtra_self]
        rfl
      · apply lookupExtra_setExtra_isSome
        apply lookupExtra_setExtra_isSome
        apply lookupExtra_setExtra_isSome
        apply lookupExtra_setExtra_isSome
        apply lookupExtra_setExtra_isSome
        apply lookupExtra_setExtra_isSome
        rw [lookupExtra_setExtra_self]
        rfl
      · apply lookupExtra_setExtra_isSome
        apply lookupExtra_setExtra_isSome
        apply lookupExtra_setExtra_isSome
        apply lookupExtra_setExtra_isSome
        apply lookupExtra_setExtra_isSome
        rw [lookupExtra_setExtra_self]
        rfl
      · apply lookupExtra_setExtra_isSome
        apply lookupExtra_setExtra_isSome
        apply lookupExtra_setExtra_isSome
        apply lookupExtra_setExtra_isSome
        rw [lookupExtra_setExtra_self]
        rfl
      · apply lookupExtra_setExtra_isSome
        apply lookupExtra_setExtra_isSome
        apply lookupExtra_setExtra_isSome
        rw [lookupExtra_setExtra_self]
        rfl
      · apply lookupExtra_setExtra_isSome
        apply lookupExtra_setExtra_isSome
        rw [lookupExtra_setExtra_self]
        rfl
      · apply lookupExtra_setExtra_isSome
        rw [lookupExtra_setExtra_self]
        rfl
      · rw [lookupExtra_setExtra_self]
        rfl

/-- Witness for C10: the concrete frame keeps its close column and an
unrelated column name, and gains the macd column. -/
theorem C10_frame_preservation_witness :
    exStdOut.close = exFrame.close ∧
    lookupExtra exStdOut "foo" = lookupExtra exFrame "foo" ∧
    (lookupExtra exStdOut "macd").isSome := by
  have h := C10_frame_preservation.1 exFrame 12 26 9 exStdOut rfl
  exact ⟨h.1.2.2.2.1, h.2.1 "foo" (by decide), h.2.2 "macd" (by decide)⟩

end Stonks
